import Mathlib

/-!
# Shallow embedding of the goit-pythonweb-hw-12 contacts backend

This file embeds the data model and the operations of the FastAPI contacts
application (files under `src/`) as executable Lean definitions and proves
the spec claims C1–C10 about them.

Conventions of the embedding:
* The database is a pure value: a `List DBUser` and a `List Contact`;
  each handler is a function from the request and the current database to
  an outcome together with the database after the request (the source
  performs `db.commit()` exactly where the returned database differs).
* JWT payloads are association lists of claims; `jwt.decode` is abstracted
  as a parameter `decode : String → Option Payload` (`none` models a
  `JWTError`: bad signature, expired, or structurally malformed token).
* Password hashing (`passlib` bcrypt) is abstracted as a parameter
  `verify : String → String → Bool` standing for `Hash.verify_password`.
* Python `dict.get(k)` returns `None` both for a missing key and for an
  explicit JSON `null` value, while `dict[k]` raises `KeyError` on a
  missing key only; the embedding separates the two (`pyGet` versus
  `lookupClaim`).
-/

namespace ContactsApi

/-! ## Data model (src/database/models.py)

`userTableColumns` and `contactTableColumns` list exactly the mapped
columns declared on the two ORM models in `src/database/models.py`.
Note the `users` table declares neither a `role` nor a `refresh_token`
column, although other modules read and write those attributes at runtime.
-/

def userTableColumns : List String :=
  ["id", "email", "username", "hashed_password", "is_confirmed", "avatar"]

def contactTableColumns : List String :=
  ["id", "first_name", "last_name", "email", "phone", "birth_date",
   "description", "user_id"]

/-- The runtime user object as the auth code uses it: the columns of
`models.User` plus the `refresh_token` attribute that `login_user`
assigns and `verify_refresh_token` filters on (that attribute is not a
declared column, which claim C1 is about). -/
structure DBUser where
  id : Nat
  email : String
  username : String
  hashed_password : String
  is_confirmed : Bool
  avatar : Option String
  refresh_token : Option String
deriving Repr, DecidableEq

/-- A row of the `contacts` table (src/database/models.py `Contact`);
`birth_date` is a calendar date represented as a linear day count, and
the fields that the request schema allows to omit are `Option`s. -/
structure Contact where
  id : Nat
  first_name : String
  last_name : Option String
  email : String
  phone : Option String
  birth_date : Option Int
  description : Option String
  user_id : Nat
deriving Repr, DecidableEq

/-! ## Request schemas (src/schemas.py) -/

/-- `schemas.ContactModel`: the request body for contact create/update.
It has no owner field at all, so a client cannot supply one. -/
structure ContactModel where
  first_name : String
  last_name : Option String
  email : String
  phone : Option String
  birth_date : Option Int
  description : Option String
deriving Repr, DecidableEq

/-- `schemas.UserCreate`: the registration request body. -/
structure UserCreate where
  email : String
  username : String
  password : String
deriving Repr, DecidableEq

/-- The field names of `schemas.Token`, the response model of the login
and refresh endpoints: exactly `access_token` and `token_type` —
`refresh_token` is not among them (claim C2 is about this). -/
def tokenSchemaFields : List String :=
  ["access_token", "token_type"]

/-- FastAPI serialization through `response_model=Token`: the handler's
returned dictionary is validated against the model and every key that is
not a model field is dropped from the delivered body. -/
def serializeTokenModel (body : List (String × String)) : List (String × String) :=
  body.filter (fun kv => tokenSchemaFields.contains kv.1)

/-! ## JWT payloads (src/services/auth.py) -/

/-- A JSON claim value as it matters to the auth code: `null`, a string,
or a number (`iat`/`exp` timestamps). -/
inductive ClaimValue where
  | null : ClaimValue
  | str : String → ClaimValue
  | num : Nat → ClaimValue
deriving Repr, DecidableEq

/-- A decoded JWT payload: an association list of claims. -/
abbrev Payload := List (String × ClaimValue)

/-- `payload[k]` seen as a partial lookup: `none` means the key is absent
(in Python, `payload[k]` would raise `KeyError`). -/
def lookupClaim (p : Payload) (k : String) : Option ClaimValue :=
  (p.find? (fun kv => kv.1 = k)).map (fun kv => kv.2)

/-- Python `payload.get(k)` restricted to string claims: `None` for a
missing key and for an explicit `null`; a non-string value also never
equals a string constant such as `"refresh"`. -/
def pyGet (p : Payload) (k : String) : Option String :=
  match lookupClaim p k with
  | some (ClaimValue.str s) => some s
  | _ => none

/-- Python `dict` assignment `d[k] = v`: replace the value at an existing
key, otherwise append the pair. -/
def dictSet (p : Payload) (k : String) (v : ClaimValue) : Payload :=
  if (p.find? (fun kv => kv.1 = k)).isSome then
    p.map (fun kv => if kv.1 = k then (k, v) else kv)
  else
    p ++ [(k, v)]

/-- Python `dict.update`: fold `dictSet` over the updates, left to right. -/
def dictUpdate (p q : Payload) : Payload :=
  q.foldl (fun acc kv => dictSet acc kv.1 kv.2) p

/-- `ACCESS_TOKEN_EXPIRE_MINUTES` in src/services/auth.py. -/
def ACCESS_TOKEN_EXPIRE_MINUTES : Nat := 15

/-- `REFRESH_TOKEN_EXPIRE_MINUTES` in src/services/auth.py. -/
def REFRESH_TOKEN_EXPIRE_MINUTES : Nat := 60 * 24 * 7

/-- `create_token(data, expires_delta, token_type)`: copy the data and
update it with `exp`, `iat` and the `token_type` discriminator, in that
order (time is a `Nat` parameter standing for `datetime.now(UTC)`). -/
def create_token (data : Payload) (now : Nat) (expires_delta : Nat)
    (token_type : String) : Payload :=
  dictUpdate data
    [("exp", ClaimValue.num (now + expires_delta)),
     ("iat", ClaimValue.num now),
     ("token_type", ClaimValue.str token_type)]

/-- `create_access_token(data, expires_delta)`: the Python truthiness test
`if expires_delta:` sends both `None` and `0` to the default expiry. -/
def create_access_token (data : Payload) (now : Nat)
    (expires_delta : Option Nat) : Payload :=
  if expires_delta.getD 0 ≠ 0 then
    create_token data now (expires_delta.getD 0) "access"
  else
    create_token data now ACCESS_TOKEN_EXPIRE_MINUTES "access"

/-- `create_refresh_token(data, expires_delta)`. -/
def create_refresh_token (data : Payload) (now : Nat)
    (expires_delta : Option Nat) : Payload :=
  if expires_delta.getD 0 ≠ 0 then
    create_token data now (expires_delta.getD 0) "refresh"
  else
    create_token data now REFRESH_TOKEN_EXPIRE_MINUTES "refresh"

/-! ## Auth service (src/services/auth.py) -/

/-- The observable outcome of `get_current_user`: an `HTTPException`
with status and detail, a successfully resolved user, or an uncaught
Python `KeyError` (which FastAPI surfaces as a 500, not a 401). -/
inductive AuthOutcome where
  | http : Nat → String → AuthOutcome
  | ok : DBUser → AuthOutcome
  | keyError : AuthOutcome
deriving Repr, DecidableEq

/-- `get_current_user(token, db)`.  The source decodes the token
(`except JWTError` → 401), then evaluates `payload["sub"]` — a missing
`sub` key raises `KeyError`, which the `except JWTError` clause does not
catch; a present-but-null `sub` trips `if username is None` → 401; then
it looks the user up by username, `None` → 401.  No `token_type` check
is performed anywhere in this function. -/
def get_current_user (decode : String → Option Payload) (db : List DBUser)
    (token : String) : AuthOutcome :=
  match decode token with
  | none => AuthOutcome.http 401 "Could not validate credentials"
  | some payload =>
    match lookupClaim payload "sub" with
    | none => AuthOutcome.keyError
    | some v =>
      if v = ClaimValue.null then
        AuthOutcome.http 401 "Could not validate credentials"
      else
        match db.find? (fun u => ClaimValue.str u.username = v) with
        | none => AuthOutcome.http 401 "Could not validate credentials"
        | some u => AuthOutcome.ok u

/-- The outcome of `verify_refresh_token`: the function either returns
`None`, or raises.  Its query
`select(User).filter_by(username=username, refresh_token=refresh_token)`
names the column `refresh_token`, which `models.User` does not declare
(see `userTableColumns`), so SQLAlchemy raises `InvalidRequestError` at
query construction — an exception the surrounding `except JWTError`
does not catch.  The `user` arm mirrors the function's final
`return user.scalar_one_or_none()`, which is dead code behind the
raising line: no path constructs it. -/
inductive VerifyRefreshOutcome where
  | noUser : VerifyRefreshOutcome
  | user : DBUser → VerifyRefreshOutcome
  | invalidRequestError : VerifyRefreshOutcome
deriving Repr, DecidableEq

/-- `verify_refresh_token(refresh_token, db)`: decode (`JWTError` →
`None`), read `sub` and `token_type` with `.get`, require a subject and
`token_type == "refresh"`; the query that should then match the user
whose `username` equals the subject AND whose stored `refresh_token`
equals the raw presented token string instead raises
`InvalidRequestError`, because the `users` table declares no
`refresh_token` column, so the lookup is never executed and no user can
ever be returned. -/
def verify_refresh_token (decode : String → Option Payload)
    (db : List DBUser) (refresh_token : String) : VerifyRefreshOutcome :=
  match decode refresh_token with
  | none => VerifyRefreshOutcome.noUser
  | some payload =>
    match pyGet payload "sub" with
    | none => VerifyRefreshOutcome.noUser
    | some _username =>
      if pyGet payload "token_type" ≠ some "refresh" then
        VerifyRefreshOutcome.noUser
      else
        VerifyRefreshOutcome.invalidRequestError

/-! ## Users repository (src/repository/users.py) -/

/-- `UsersRepository.create_user(body)`: build a `User` from the request
body fields with the password already hashed by the caller; the ORM
defaults apply (`is_confirmed=False`, `avatar` null) and no refresh token
exists yet.  A fresh primary key is passed in as `nextId`. -/
def create_user (body : UserCreate) (nextId : Nat) (db : List DBUser) :
    DBUser × List DBUser :=
  let u : DBUser :=
    { id := nextId
      email := body.email
      username := body.username
      hashed_password := body.password
      is_confirmed := false
      avatar := none
      refresh_token := none }
  (u, db ++ [u])

/-- `UsersRepository.confirm_email(email)`: fetch the user by email (the
`email` column is declared unique) and set `is_confirmed = True`, then
commit. -/
def confirm_email (email : String) (db : List DBUser) : List DBUser :=
  db.map (fun u => if u.email = email then { u with is_confirmed := true } else u)

/-! ## Auth API (src/api/auth.py) -/

/-- The observable outcome of the login handler: an `HTTPException`, or
the dictionary `{"access_token": a, "refresh_token": r, "token_type": t}`
that the handler returns. -/
inductive LoginOutcome where
  | http : Nat → String → LoginOutcome
  | ok : String → String → String → LoginOutcome
deriving Repr, DecidableEq

/-- `login_user(form_data, db)`.  `verify` abstracts
`Hash.verify_password`; `mkAccess`/`mkRefresh` abstract the encoded
string results of `create_access_token`/`create_refresh_token` on
`{"sub": username}`.  One combined test (`not user or not verify(...)`)
yields the identical 401 for an unknown username and a wrong password;
an unconfirmed user gets a distinct 401; on success both tokens are
issued, the refresh token is stored on the user's row, and the handler
returns all three response fields. -/
def login_user (verify : String → String → Bool)
    (mkAccess mkRefresh : String → String)
    (db : List DBUser) (username password : String) :
    LoginOutcome × List DBUser :=
  match db.find? (fun u => u.username = username) with
  | none => (LoginOutcome.http 401 "Invalid credentials", db)
  | some user =>
    if verify password user.hashed_password = false then
      (LoginOutcome.http 401 "Invalid credentials", db)
    else if user.is_confirmed = false then
      (LoginOutcome.http 401 "Email is not confirmed", db)
    else
      let access := mkAccess user.username
      let refresh := mkRefresh user.username
      (LoginOutcome.ok access refresh "bearer",
       db.map (fun u =>
         if u.id = user.id then { u with refresh_token := some refresh } else u))

/-- The dictionary literally returned by the login and refresh handlers,
before FastAPI serializes it through `response_model=Token`. -/
def tokenHandlerBody (access refresh token_type : String) :
    List (String × String) :=
  [("access_token", access), ("refresh_token", refresh),
   ("token_type", token_type)]

/-- The observable outcome of the refresh endpoint: an `HTTPException`,
the handler's success dictionary, or the verifier's uncaught
`InvalidRequestError` propagating through the handler (FastAPI surfaces
it as a 500). -/
inductive RefreshOutcome where
  | http : Nat → String → RefreshOutcome
  | ok : String → String → String → RefreshOutcome
  | invalidRequestError : RefreshOutcome
deriving Repr, DecidableEq

/-- `new_token(request, db)` (the refresh endpoint): verify the presented
refresh token; `None` → 401; a returned user would get a new access
token with the presented refresh token echoed back (dead code, since the
verifier can never return a user); the verifier's
`InvalidRequestError` propagates uncaught.  The handler never writes to
the database, so the state is returned unchanged on every path. -/
def new_token (decode : String → Option Payload)
    (mkAccess : String → String) (db : List DBUser)
    (refresh_token : String) : RefreshOutcome × List DBUser :=
  match verify_refresh_token decode db refresh_token with
  | VerifyRefreshOutcome.noUser =>
    (RefreshOutcome.http 401 "Invalid or expired refresh token", db)
  | VerifyRefreshOutcome.user user =>
    (RefreshOutcome.ok (mkAccess user.username) refresh_token "bearer", db)
  | VerifyRefreshOutcome.invalidRequestError =>
    (RefreshOutcome.invalidRequestError, db)

/-- The observable outcome of `register_user`. -/
inductive RegisterOutcome where
  | http : Nat → String → RegisterOutcome
  | created : DBUser → RegisterOutcome
deriving Repr, DecidableEq

/-- `register_user(user_data, db)`: look the user up by email and by
username; if either exists, 409 "User already exists"; otherwise hash
the password and create the user. -/
def register_user (hashPw : String → String) (body : UserCreate)
    (nextId : Nat) (db : List DBUser) : RegisterOutcome × List DBUser :=
  let user_by_email := db.find? (fun u => u.email = body.email)
  let user_by_username := db.find? (fun u => u.username = body.username)
  if user_by_username.isSome || user_by_email.isSome then
    (RegisterOutcome.http 409 "User already exists", db)
  else
    let hashed := hashPw body.password
    let r := create_user { body with password := hashed } nextId db
    (RegisterOutcome.created r.1, r.2)

/-- The observable outcome of the email-confirmation endpoint: an
`HTTPException`, a 200 body `{"message": m}`, or the uncaught
`AttributeError` raised by `await user_service.confirmed_email(email)`
— `UserService` defines only `confirm_email`, so the attribute access
fails and FastAPI surfaces a 500. -/
inductive ConfirmOutcome where
  | http : Nat → String → ConfirmOutcome
  | msg : String → ConfirmOutcome
  | attributeError : ConfirmOutcome
deriving Repr, DecidableEq

/-- `confirmed_email(token, db)` after the token has been decoded to the
embedded email (`get_email_from_token`; an undecodable token never
reaches this logic, failing 422 instead): user missing → 400
"Verification error"; already confirmed → idempotent 200 message with no
write; otherwise the handler calls `user_service.confirmed_email(email)`
— a method that does not exist (`UserService` defines `confirm_email`),
so the unconfirmed path raises `AttributeError` and `is_confirmed` is
never written.  The repository write the handler intends to reach is
embedded separately as `confirm_email` above and is never invoked. -/
def confirmed_email (email : String) (db : List DBUser) :
    ConfirmOutcome × List DBUser :=
  match db.find? (fun u => u.email = email) with
  | none => (ConfirmOutcome.http 400 "Verification error", db)
  | some user =>
    if user.is_confirmed then
      (ConfirmOutcome.msg "Email already confirmed", db)
    else
      (ConfirmOutcome.attributeError, db)

/-! ## Contacts repository (src/repository/contacts.py) -/

/-- `Result.scalar_one_or_none()` on the rows matched by a query whose
filter includes the primary key: at most one row can match, and the
theorems that depend on it carry a no-duplicate-ids hypothesis. -/
def scalarOneOrNone {α : Type} (l : List α) : Option α :=
  match l with
  | [a] => some a
  | _ => none

/-- `get_contacts(user, skip, limit)`: the user's contacts with
offset/limit pagination. -/
def get_contacts (user : DBUser) (skip limit : Nat) (db : List Contact) :
    List Contact :=
  ((db.filter (fun c => c.user_id = user.id)).drop skip).take limit

/-- `get_contact_by_id(user, contact_id)`: filter by owner AND id, then
`scalar_one_or_none`. -/
def get_contact_by_id (user : DBUser) (contact_id : Nat)
    (db : List Contact) : Option Contact :=
  scalarOneOrNone
    (db.filter (fun c => c.user_id = user.id ∧ c.id = contact_id))

/-- `q` occurs at the head of `l`. -/
def listLeads : List Char → List Char → Bool
  | [], _ => true
  | _ :: _, [] => false
  | a :: as, b :: bs => a = b && listLeads as bs

/-- `q` occurs somewhere inside `l`. -/
def listHasSub (q : List Char) : List Char → Bool
  | [] => listLeads q []
  | b :: ls => listLeads q (b :: ls) || listHasSub q ls

/-- SQL `column ILIKE '%q%'`: case-insensitive substring match; a NULL
column never matches. -/
def ilikeSub (column : Option String) (q : String) : Bool :=
  match column with
  | none => false
  | some s =>
    listHasSub (q.toList.map Char.toLower) (s.toList.map Char.toLower)

/-- `search_contacts(user, query)`: the user's contacts whose first name,
last name or email contains the query, case-insensitively. -/
def search_contacts (user : DBUser) (q : String) (db : List Contact) :
    List Contact :=
  (db.filter (fun c => c.user_id = user.id)).filter
    (fun c =>
      ilikeSub (some c.first_name) q || ilikeSub c.last_name q ||
        ilikeSub (some c.email) q)

/-- `get_birthdays_next_week(user)`: the user's contacts whose
`birth_date` lies in `BETWEEN today AND today + 7` — an inclusive
comparison of the full stored date, with no year normalization; a NULL
date never matches. -/
def get_birthdays_next_week (today : Int) (user : DBUser)
    (db : List Contact) : List Contact :=
  db.filter (fun c =>
    decide (c.user_id = user.id) &&
      match c.birth_date with
      | none => false
      | some d => decide (today ≤ d) && decide (d ≤ today + 7))

/-- `create_contact(user, body)`: a contact built from the request body
fields with `user=user` — the owner comes from the authenticated caller;
`ContactModel` has no owner field a client could supply.  A fresh primary
key is passed in as `nextId`. -/
def create_contact (user : DBUser) (body : ContactModel) (nextId : Nat)
    (db : List Contact) : Contact × List Contact :=
  let c : Contact :=
    { id := nextId
      first_name := body.first_name
      last_name := body.last_name
      email := body.email
      phone := body.phone
      birth_date := body.birth_date
      description := body.description
      user_id := user.id }
  (c, db ++ [c])

/-- The field overwrite performed by `update_contact`: every contact
field is assigned from the body. -/
def applyUpdate (body : ContactModel) (c : Contact) : Contact :=
  { c with
      first_name := body.first_name
      last_name := body.last_name
      email := body.email
      phone := body.phone
      birth_date := body.birth_date
      description := body.description }

/-- `update_contact(user, contact_id, body)`: fetch through
`get_contact_by_id` (owner-scoped); if found, overwrite every field from
the body and commit, else return `None` with no write. -/
def update_contact (user : DBUser) (contact_id : Nat) (body : ContactModel)
    (db : List Contact) : Option Contact × List Contact :=
  match get_contact_by_id user contact_id db with
  | none => (none, db)
  | some c =>
    let c2 := applyUpdate body c
    (some c2, db.map (fun x => if x.id = c.id then c2 else x))

/-- `remove_contact(user, contact_id)`: fetch through
`get_contact_by_id` (owner-scoped); if found, delete the row and commit,
else return `None` with no write. -/
def remove_contact (user : DBUser) (contact_id : Nat) (db : List Contact) :
    Option Contact × List Contact :=
  match get_contact_by_id user contact_id db with
  | none => (none, db)
  | some c => (some c, db.filter (fun x => ¬ x.id = c.id))

/-! ## Concrete instances used to evaluate the embedding

A concrete password oracle and token encoder stand in for the external
bcrypt and JWT-encoding collaborators, plus small concrete databases;
the general theorems are applied to these to obtain closed evaluations. -/

/-- A concrete instance of the `Hash.verify_password` oracle. -/
def demoVerify (plain hashed : String) : Bool :=
  hashed = "bcrypt-" ++ plain

/-- A concrete instance of the `Hash.get_password_hash` oracle,
compatible with `demoVerify`. -/
def demoHashPw (plain : String) : String :=
  "bcrypt-" ++ plain

/-- A concrete encoded access token for a given subject. -/
def demoAccessTok (username : String) : String :=
  "access-" ++ username

/-- A concrete encoded refresh token for a given subject. -/
def demoRefreshTok (username : String) : String :=
  "refresh-" ++ username

/-- A confirmed user, as the integration tests set one up. -/
def samuraiUser : DBUser :=
  { id := 1
    email := "samurai@gmail.com"
    username := "samurai"
    hashed_password := "bcrypt-1234567"
    is_confirmed := true
    avatar := none
    refresh_token := none }

/-- A one-user database for the login scenarios. -/
def demoAuthDb : List DBUser := [samuraiUser]

/-- A confirmed user holding a stored refresh token. -/
def aliceUser : DBUser :=
  { id := 1
    email := "alice@example.com"
    username := "alice"
    hashed_password := "bcrypt-pw"
    is_confirmed := true
    avatar := none
    refresh_token := some "rtok-alice" }

/-- A one-user database for the refresh scenarios. -/
def demoRefreshDb : List DBUser := [aliceUser]

/-- The decoded payload of the token `"rtok-alice"`: a well-formed,
unexpired refresh token with subject `alice`. -/
def demoRefreshPayload : Payload :=
  [("sub", ClaimValue.str "alice"),
   ("token_type", ClaimValue.str "refresh"),
   ("exp", ClaimValue.num 100)]

/-- A concrete `jwt.decode`: `"rtok-alice"` carries
`demoRefreshPayload`; every other string fails to decode. -/
def demoDecode : String → Option Payload := fun t =>
  if t = "rtok-alice" then some demoRefreshPayload else none

/-- A payload with a signature and expiry that verify but no `sub`
claim at all. -/
def noSubPayload : Payload :=
  [("exp", ClaimValue.num 99), ("token_type", ClaimValue.str "access")]

/-- A concrete `jwt.decode`: `"nosub-token"` decodes to `noSubPayload`;
every other string fails to decode. -/
def demoDecodeNoSub : String → Option Payload := fun t =>
  if t = "nosub-token" then some noSubPayload else none

/-- Contact-owning user A. -/
def ownerA : DBUser :=
  { id := 1
    email := "a@example.com"
    username := "usera"
    hashed_password := "bcrypt-a"
    is_confirmed := true
    avatar := none
    refresh_token := none }

/-- Contact-owning user B, distinct from A. -/
def ownerB : DBUser :=
  { id := 2
    email := "b@example.com"
    username := "userb"
    hashed_password := "bcrypt-b"
    is_confirmed := true
    avatar := none
    refresh_token := none }

/-- A contact owned by user A. -/
def contactOfA : Contact :=
  { id := 10
    first_name := "Paul"
    last_name := some "Smith"
    email := "paul@example.com"
    phone := none
    birth_date := some 100
    description := none
    user_id := 1 }

/-- A one-contact database: only A's contact. -/
def demoContactsDb : List Contact := [contactOfA]

/-- A concrete contact request body. -/
def demoContactBody : ContactModel :=
  { first_name := "New"
    last_name := some "Name"
    email := "new@example.com"
    phone := none
    birth_date := some 50
    description := none }

/-- A registered but not yet confirmed user. -/
def pendingUser : DBUser :=
  { id := 3
    email := "pending@example.com"
    username := "pending"
    hashed_password := "bcrypt-secret"
    is_confirmed := false
    avatar := none
    refresh_token := none }

/-- A one-user database holding only the unconfirmed user. -/
def demoConfirmDb : List DBUser := [pendingUser]

/-- A concrete registration body. -/
def demoRegisterBody : UserCreate :=
  { email := "nick@example.com"
    username := "nick"
    password := "7654321" }

/-! ## Helper lemmas -/

theorem scalarOneOrNone_mem {α : Type} {l : List α} {a : α}
    (h : scalarOneOrNone l = some a) : a ∈ l := by
  match l with
  | [] => simp [scalarOneOrNone] at h
  | [b] =>
    simp [scalarOneOrNone] at h
    simp [h]
  | b :: c :: rest => simp [scalarOneOrNone] at h

theorem lookupClaim_map_set (p : Payload) (k : String) (v : ClaimValue) :
    lookupClaim (p.map (fun kv => if kv.1 = k then (k, v) else kv)) k =
      if (p.find? (fun kv => kv.1 = k)).isSome then some v else none := by
  induction p with
  | nil => simp [lookupClaim]
  | cons a as ih =>
    by_cases ha : a.1 = k
    · simp [lookupClaim, List.find?, ha]
    · simp only [lookupClaim, List.map_cons, if_neg ha] at ih ⊢
      rw [List.find?_cons_of_neg _ (by simpa using ha),
        List.find?_cons_of_neg _ (by simpa using ha)]
      exact ih

theorem lookupClaim_dictSet_self (p : Payload) (k : String) (v : ClaimValue) :
    lookupClaim (dictSet p k v) k = some v := by
  unfold dictSet
  by_cases h : (p.find? (fun kv => kv.1 = k)).isSome
  · rw [if_pos h, lookupClaim_map_set, if_pos h]
  · rw [if_neg h]
    rw [Option.not_isSome_iff_eq_none] at h
    simp [lookupClaim, List.find?_append, h, List.find?]

theorem create_token_token_type (data : Payload) (now delta : Nat)
    (t : String) :
    lookupClaim (create_token data now delta t) "token_type" =
      some (ClaimValue.str t) := by
  unfold create_token dictUpdate
  simp only [List.foldl]
  exact lookupClaim_dictSet_self _ _ _

/-! ## Claim theorems -/

/-- C1: the claim says the persisted `User` record carries a `role`
column and a nullable `refresh_token` column and that login stores the
issued refresh token on the row.  The login handler does assign
`user.refresh_token` and commit (third conjunct evaluates it), but the
ORM model in `src/database/models.py` declares neither a `role` nor a
`refresh_token` column, so the assignment has no persisted column behind
it: the code contradicts its own tests, which read `role` and
`refresh_token` back from the database. -/
theorem user_table_omits_role_and_refresh_token_columns :
    userTableColumns.contains "role" = false ∧
    userTableColumns.contains "refresh_token" = false ∧
    (login_user demoVerify demoAccessTok demoRefreshTok demoAuthDb
        "samurai" "1234567").2.map DBUser.refresh_token =
      [some "refresh-samurai"] := by
  decide

/-- C2: the claim says a successful login delivers `access_token`,
`refresh_token` and `token_type = "bearer"` to the client.  The handler
does return all three, but the route's `response_model=Token` schema has
only the fields `access_token` and `token_type`, so FastAPI drops
`refresh_token` from the delivered body: at the concrete successful
login the serialized body's keys are exactly `access_token` and
`token_type`. -/
theorem login_response_model_drops_refresh_token :
    (login_user demoVerify demoAccessTok demoRefreshTok demoAuthDb
        "samurai" "1234567").1 =
      LoginOutcome.ok "access-samurai" "refresh-samurai" "bearer" ∧
    serializeTokenModel
        (tokenHandlerBody "access-samurai" "refresh-samurai" "bearer") =
      [("access_token", "access-samurai"), ("token_type", "bearer")] ∧
    ((serializeTokenModel
        (tokenHandlerBody "access-samurai" "refresh-samurai"
          "bearer")).map Prod.fst).contains "refresh_token" = false := by
  decide

/-- C3: the claim's refresh behaviors never occur.  Because the
`users` table declares no `refresh_token` column, the verifier's
`select(User).filter_by(username=..., refresh_token=...)` raises
`InvalidRequestError` — uncaught, surfaced as 500 — on every presented
token that decodes with a subject and `token_type = "refresh"`: at the
concrete decodable token the endpoint errors instead of returning
either the claimed 200-with-echo or the claimed matching-based 401;
only a token that fails to decode reaches the 401. -/
theorem refresh_endpoint_errors_on_every_decodable_token :
    new_token demoDecode demoAccessTok demoRefreshDb "rtok-alice" =
      (RefreshOutcome.invalidRequestError, demoRefreshDb) ∧
    new_token demoDecode demoAccessTok demoConfirmDb "rtok-alice" =
      (RefreshOutcome.invalidRequestError, demoConfirmDb) ∧
    new_token demoDecode demoAccessTok demoRefreshDb "garbage" =
      (RefreshOutcome.http 401 "Invalid or expired refresh token",
        demoRefreshDb) ∧
    userTableColumns.contains "refresh_token" = false := by
  decide

/-- C4 counterexample: the claim says `get_current_user` rejects a
refresh token.  At a concrete input, `"rtok-alice"` decodes to a payload
whose `token_type` is `"refresh"` and whose subject names the existing
user alice — and `get_current_user` authenticates the caller as alice
instead of failing. -/
theorem get_current_user_accepts_refresh_token :
    lookupClaim demoRefreshPayload "token_type" =
      some (ClaimValue.str "refresh") ∧
    demoDecode "rtok-alice" = some demoRefreshPayload ∧
    get_current_user demoDecode demoRefreshDb "rtok-alice" =
      AuthOutcome.ok aliceUser := by
  decide

/-- C4 amended: every created access and refresh token carries the
`token_type` discriminator (`"access"`/`"refresh"`), and
`verify_refresh_token` checks it, but `get_current_user` performs no
`token_type` check: any decodable token whose (non-null) subject names
an existing user is accepted where an access token is required — even
one whose `token_type` claim is `"refresh"`. -/
theorem token_type_written_but_not_checked_on_access
    (decode : String → Option Payload) (db : List DBUser) :
    (∀ data now delta,
      lookupClaim (create_access_token data now delta) "token_type" =
        some (ClaimValue.str "access")) ∧
    (∀ data now delta,
      lookupClaim (create_refresh_token data now delta) "token_type" =
        some (ClaimValue.str "refresh")) ∧
    (∀ tok payload uname u,
      decode tok = some payload →
      lookupClaim payload "token_type" = some (ClaimValue.str "refresh") →
      lookupClaim payload "sub" = some (ClaimValue.str uname) →
      db.find? (fun x => x.username = uname) = some u →
      get_current_user decode db tok = AuthOutcome.ok u) := by
  refine ⟨?_, ?_, ?_⟩
  · intro data now delta
    unfold create_access_token
    split <;> exact create_token_token_type _ _ _ _
  · intro data now delta
    unfold create_refresh_token
    split <;> exact create_token_token_type _ _ _ _
  · intro tok payload uname u hdec _htype hsub hfind
    simp [get_current_user, hdec, hsub, hfind]

/-- Witness for C4's amended claim: the concrete refresh token
`"rtok-alice"` is accepted by `get_current_user` as alice. -/
theorem token_type_written_but_not_checked_witness :
    get_current_user demoDecode demoRefreshDb "rtok-alice" =
      AuthOutcome.ok aliceUser :=
  (token_type_written_but_not_checked_on_access demoDecode
    demoRefreshDb).2.2 "rtok-alice" demoRefreshPayload "alice" aliceUser
    (by decide) (by decide) (by decide) (by decide)

/-- C5 counterexample: the claim says a decoded payload with no subject
claim fails with HTTP 401.  At a concrete input, `"nosub-token"`
decodes to a payload without a `sub` key and `get_current_user` raises
an uncaught `KeyError` (surfaced as a 500), not the 401
`HTTPException`. -/
theorem missing_sub_claim_is_not_a_401 :
    get_current_user demoDecodeNoSub demoRefreshDb "nosub-token" =
      AuthOutcome.keyError ∧
    get_current_user demoDecodeNoSub demoRefreshDb "nosub-token" ≠
      AuthOutcome.http 401 "Could not validate credentials" := by
  decide

/-- C5 amended: `get_current_user` fails with the uniform 401 in exactly
these cases — the token fails to decode, the `sub` claim is present but
null, or the subject names no existing user; a payload whose `sub` key
is entirely absent instead raises an uncaught `KeyError` (`except
JWTError` does not catch it, so FastAPI surfaces a 500); otherwise it
returns the user named by the subject. -/
theorem get_current_user_failure_characterization
    (decode : String → Option Payload) (db : List DBUser) (tok : String) :
    (decode tok = none →
      get_current_user decode db tok =
        AuthOutcome.http 401 "Could not validate credentials") ∧
    (∀ payload, decode tok = some payload →
      lookupClaim payload "sub" = none →
      get_current_user decode db tok = AuthOutcome.keyError) ∧
    (∀ payload, decode tok = some payload →
      lookupClaim payload "sub" = some ClaimValue.null →
      get_current_user decode db tok =
        AuthOutcome.http 401 "Could not validate credentials") ∧
    (∀ payload v, decode tok = some payload →
      lookupClaim payload "sub" = some v → v ≠ ClaimValue.null →
      db.find? (fun u => ClaimValue.str u.username = v) = none →
      get_current_user decode db tok =
        AuthOutcome.http 401 "Could not validate credentials") ∧
    (∀ payload v u, decode tok = some payload →
      lookupClaim payload "sub" = some v → v ≠ ClaimValue.null →
      db.find? (fun x => ClaimValue.str x.username = v) = some u →
      get_current_user decode db tok = AuthOutcome.ok u) := by
  refine ⟨?_, ?_, ?_, ?_, ?_⟩
  · intro h
    simp [get_current_user, h]
  · intro payload hdec hsub
    simp [get_current_user, hdec, hsub]
  · intro payload hdec hsub
    simp [get_current_user, hdec, hsub]
  · intro payload v hdec hsub hv hfind
    simp [get_current_user, hdec, hsub, hv, hfind]
  · intro payload v u hdec hsub hv hfind
    simp [get_current_user, hdec, hsub, hv, hfind]

/-- Witness for C5's amended claim: the no-`sub` payload produces the
uncaught `KeyError` outcome. -/
theorem get_current_user_failure_characterization_witness :
    get_current_user demoDecodeNoSub demoRefreshDb "nosub-token" =
      AuthOutcome.keyError :=
  (get_current_user_failure_characterization demoDecodeNoSub
    demoRefreshDb "nosub-token").2.1 noSubPayload (by decide) (by decide)

/-- C6: every contact operation is scoped to the requesting user: each
read query only ever returns contacts owned by the current user, the
owner of a created contact is the authenticated caller (the request
schema has no owner field), and for a contact owned by user A, user B's
get/update/delete return `None` (mapped to 404 by the API layer) and
leave the database unchanged. -/
theorem contact_operations_owner_scoped
    (a b : DBUser) (db : List Contact) (c : Contact) (body : ContactModel)
    (skip limit nextId : Nat) (q : String) (today : Int)
    (hnodup : (db.map Contact.id).Nodup)
    (hc : c ∈ db) (hown : c.user_id = a.id) (hne : b.id ≠ a.id) :
    (∀ x ∈ get_contacts a skip limit db, x.user_id = a.id) ∧
    (∀ x ∈ search_contacts a q db, x.user_id = a.id) ∧
    (∀ x ∈ get_birthdays_next_week today a db, x.user_id = a.id) ∧
    (∀ cid x, get_contact_by_id a cid db = some x → x.user_id = a.id) ∧
    (create_contact a body nextId db).1.user_id = a.id ∧
    get_contact_by_id b c.id db = none ∧
    update_contact b c.id body db = (none, db) ∧
    remove_contact b c.id db = (none, db) := by
  have hgetb : get_contact_by_id b c.id db = none := by
    have hfilter :
        db.filter (fun x => decide (x.user_id = b.id ∧ x.id = c.id)) = [] := by
      rw [List.filter_eq_nil_iff]
      intro x hx
      simp only [decide_eq_true_eq, not_and]
      intro hxu hxid
      have hxc : x = c :=
        List.inj_on_of_nodup_map hnodup hx hc hxid
      rw [hxc, hown] at hxu
      exact hne hxu.symm
    unfold get_contact_by_id
    rw [hfilter]
    rfl
  refine ⟨?_, ?_, ?_, ?_, rfl, hgetb, ?_, ?_⟩
  · intro x hx
    have hx2 : x ∈ db.filter (fun y => decide (y.user_id = a.id)) :=
      List.drop_subset _ _ (List.take_subset _ _ hx)
    simpa using (List.mem_filter.mp hx2).2
  · intro x hx
    have hx2 : x ∈ db.filter (fun y => decide (y.user_id = a.id)) :=
      List.mem_of_mem_filter hx
    simpa using (List.mem_filter.mp hx2).2
  · intro x hx
    have hx2 := (List.mem_filter.mp hx).2
    rw [Bool.and_eq_true] at hx2
    simpa using hx2.1
  · intro cid x hx
    have hx2 := scalarOneOrNone_mem hx
    have hx3 := (List.mem_filter.mp hx2).2
    simp only [decide_eq_true_eq] at hx3
    exact hx3.1
  · unfold update_contact
    rw [hgetb]
  · unfold remove_contact
    rw [hgetb]

/-- Witness for C6: user B's get/update/delete of A's contact (id 10)
all come back `None` with the one-contact database unchanged. -/
theorem contact_operations_owner_scoped_witness :
    get_contact_by_id ownerB 10 demoContactsDb = none ∧
    update_contact ownerB 10 demoContactBody demoContactsDb =
      (none, demoContactsDb) ∧
    remove_contact ownerB 10 demoContactsDb = (none, demoContactsDb) := by
  have h := contact_operations_owner_scoped ownerA ownerB demoContactsDb
    contactOfA demoContactBody 0 100 11 "pa" 95
    (by decide) (by decide) (by decide) (by decide)
  exact ⟨h.2.2.2.2.2.1, h.2.2.2.2.2.2.1, h.2.2.2.2.2.2.2⟩

/-- C7: an unknown username and a wrong password for an existing user
produce literally the same 401 "Invalid credentials" response (the two
causes are indistinguishable to the caller), while correct credentials
for an unconfirmed user produce the distinct 401 "Email is not
confirmed". -/
theorem login_uniform_invalid_credentials
    (verify : String → String → Bool) (mkA mkR : String → String)
    (db : List DBUser) :
    (∀ uname pw, db.find? (fun x => x.username = uname) = none →
      login_user verify mkA mkR db uname pw =
        (LoginOutcome.http 401 "Invalid credentials", db)) ∧
    (∀ uname pw u, db.find? (fun x => x.username = uname) = some u →
      verify pw u.hashed_password = false →
      login_user verify mkA mkR db uname pw =
        (LoginOutcome.http 401 "Invalid credentials", db)) ∧
    (∀ uname pw u, db.find? (fun x => x.username = uname) = some u →
      verify pw u.hashed_password = true →
      u.is_confirmed = false →
      login_user verify mkA mkR db uname pw =
        (LoginOutcome.http 401 "Email is not confirmed", db)) := by
  refine ⟨?_, ?_, ?_⟩
  · intro uname pw hfind
    simp [login_user, hfind]
  · intro uname pw u hfind hverify
    simp [login_user, hfind, hverify]
  · intro uname pw u hfind hverify hconf
    simp [login_user, hfind, hverify, hconf]

/-- Witness for C7: unknown username `"ghost"` and wrong password for
`"samurai"` both give the identical 401 "Invalid credentials"; correct
credentials for the unconfirmed `"pending"` give 401 "Email is not
confirmed". -/
theorem login_uniform_invalid_credentials_witness :
    login_user demoVerify demoAccessTok demoRefreshTok demoAuthDb
        "ghost" "1234567" =
      (LoginOutcome.http 401 "Invalid credentials", demoAuthDb) ∧
    login_user demoVerify demoAccessTok demoRefreshTok demoAuthDb
        "samurai" "wrongpw" =
      (LoginOutcome.http 401 "Invalid credentials", demoAuthDb) ∧
    login_user demoVerify demoAccessTok demoRefreshTok demoConfirmDb
        "pending" "secret" =
      (LoginOutcome.http 401 "Email is not confirmed", demoConfirmDb) := by
  refine ⟨?_, ?_, ?_⟩
  · exact (login_uniform_invalid_credentials demoVerify demoAccessTok
      demoRefreshTok demoAuthDb).1 "ghost" "1234567" (by decide)
  · exact (login_uniform_invalid_credentials demoVerify demoAccessTok
      demoRefreshTok demoAuthDb).2.1 "samurai" "wrongpw" samuraiUser
      (by decide) (by decide)
  · exact (login_uniform_invalid_credentials demoVerify demoAccessTok
      demoRefreshTok demoConfirmDb).2.2 "pending" "secret" pendingUser
      (by decide) (by decide) (by decide)

/-- C8: the 400 path and the idempotent already-confirmed path behave
as claimed and users are created with `is_confirmed = false`, but the
claim's central assertion fails: confirming the existing unconfirmed
user raises `AttributeError` — the handler calls the nonexistent
`user_service.confirmed_email` (the method is `confirm_email`) — so
`is_confirmed` is never set by the endpoint.  The last conjunct
evaluates the repository's own `confirm_email` directly, showing the
intended flag write that the endpoint never reaches. -/
theorem email_confirmation_unconfirmed_path_raises :
    confirmed_email "pending@example.com" demoConfirmDb =
      (ConfirmOutcome.attributeError, demoConfirmDb) ∧
    confirmed_email "ghost@example.com" demoConfirmDb =
      (ConfirmOutcome.http 400 "Verification error", demoConfirmDb) ∧
    confirmed_email "alice@example.com" demoRefreshDb =
      (ConfirmOutcome.msg "Email already confirmed", demoRefreshDb) ∧
    (create_user demoRegisterBody 7 []).1.is_confirmed = false ∧
    confirm_email "pending@example.com" demoConfirmDb =
      [{ pendingUser with is_confirmed := true }] := by
  decide

/-- C9: the birthdays query returns exactly the requesting user's
contacts whose stored `birth_date`, compared as a full date, lies in the
inclusive window `[today, today + 7]`; consequently a birth date lying
before `today` (such as any past-year date) never matches. -/
theorem birthdays_window_full_date (today : Int) (user : DBUser)
    (db : List Contact) (c : Contact) :
    (c ∈ get_birthdays_next_week today user db ↔
      c ∈ db ∧ c.user_id = user.id ∧
        ∃ d, c.birth_date = some d ∧ today ≤ d ∧ d ≤ today + 7) ∧
    (∀ d, c.birth_date = some d → d < today →
      c ∉ get_birthdays_next_week today user db) := by
  have hiff : c ∈ get_birthdays_next_week today user db ↔
      c ∈ db ∧ c.user_id = user.id ∧
        ∃ d, c.birth_date = some d ∧ today ≤ d ∧ d ≤ today + 7 := by
    unfold get_birthdays_next_week
    rw [List.mem_filter]
    constructor
    · rintro ⟨hmem, hp⟩
      rw [Bool.and_eq_true] at hp
      refine ⟨hmem, by simpa using hp.1, ?_⟩
      cases hbd : c.birth_date with
      | none => rw [hbd] at hp; simp at hp
      | some d =>
        rw [hbd] at hp
        have hp2 := hp.2
        rw [Bool.and_eq_true] at hp2
        exact ⟨d, rfl, by simpa using hp2.1, by simpa using hp2.2⟩
    · rintro ⟨hmem, huid, d, hbd, h1, h2⟩
      refine ⟨hmem, ?_⟩
      rw [hbd]
      simp [huid, h1, h2]
  refine ⟨hiff, ?_⟩
  intro d hbd hlt hmem
  obtain ⟨-, -, d2, hbd2, hle, -⟩ := hiff.mp hmem
  rw [hbd] at hbd2
  injection hbd2 with hd
  omega

/-- Witness for C9: A's contact with `birth_date = 100` is returned when
`today = 95` (inside the inclusive 7-day window) and is never returned
when `today = 101` (its full date lies in the past). -/
theorem birthdays_window_full_date_witness :
    contactOfA ∈ get_birthdays_next_week 95 ownerA demoContactsDb ∧
    contactOfA ∉ get_birthdays_next_week 101 ownerA demoContactsDb := by
  constructor
  · exact (birthdays_window_full_date 95 ownerA demoContactsDb
      contactOfA).1.mpr
      ⟨by decide, by decide, 100, by decide, by decide, by decide⟩
  · exact (birthdays_window_full_date 101 ownerA demoContactsDb
      contactOfA).2 100 (by decide) (by decide)

/-- C10: registration fails 409 ("User already exists") and creates no
user whenever some existing user already holds the requested email OR
the requested username; in particular a successful registration followed
by the same payload again yields 409 on the second attempt with no
second user created. -/
theorem duplicate_registration_conflict
    (hashPw : String → String) (body : UserCreate)
    (nextId nextId2 : Nat) (db : List DBUser) :
    ((∃ u ∈ db, u.email = body.email ∨ u.username = body.username) →
      register_user hashPw body nextId db =
        (RegisterOutcome.http 409 "User already exists", db)) ∧
    (∀ u db2,
      register_user hashPw body nextId db =
        (RegisterOutcome.created u, db2) →
      register_user hashPw body nextId2 db2 =
        (RegisterOutcome.http 409 "User already exists", db2)) := by
  constructor
  · rintro ⟨u, hu, hcase⟩
    have hcond : ((db.find? (fun x => x.username = body.username)).isSome ||
        (db.find? (fun x => x.email = body.email)).isSome) = true := by
      rw [Bool.or_eq_true]
      cases hcase with
      | inl he =>
        exact Or.inr (List.find?_isSome.mpr ⟨u, hu, by simpa using he⟩)
      | inr hn =>
        exact Or.inl (List.find?_isSome.mpr ⟨u, hu, by simpa using hn⟩)
    simp [register_user, hcond]
  · intro u db2 hreg
    by_cases hcond : ((db.find? (fun x => x.username = body.username)).isSome ||
        (db.find? (fun x => x.email = body.email)).isSome) = true
    · simp [register_user, hcond] at hreg
    · have hdb2 : db2 = db ++
          [{ id := nextId
             email := body.email
             username := body.username
             hashed_password := hashPw body.password
             is_confirmed := false
             avatar := none
             refresh_token := none }] := by
        simp [register_user, hcond, create_user] at hreg
        exact hreg.2.symm
      have hcond2 : ((db2.find? (fun x => x.username = body.username)).isSome ||
          (db2.find? (fun x => x.email = body.email)).isSome) = true := by
        rw [Bool.or_eq_true]
        right
        rw [List.find?_isSome]
        refine ⟨{ id := nextId
                  email := body.email
                  username := body.username
                  hashed_password := hashPw body.password
                  is_confirmed := false
                  avatar := none
                  refresh_token := none }, ?_, ?_⟩
        · rw [hdb2]
          exact List.mem_append_right _ (List.mem_singleton_self _)
        · simp
      simp [register_user, hcond2]

/-- Witness for C10: registering `nick@example.com` into the empty
database succeeds; repeating the identical payload immediately fails
409 and leaves the one-user database unchanged. -/
theorem duplicate_registration_conflict_witness :
    register_user demoHashPw demoRegisterBody 2
        [{ id := 1
           email := "nick@example.com"
           username := "nick"
           hashed_password := "bcrypt-7654321"
           is_confirmed := false
           avatar := none
           refresh_token := none }] =
      (RegisterOutcome.http 409 "User already exists",
        [{ id := 1
           email := "nick@example.com"
           username := "nick"
           hashed_password := "bcrypt-7654321"
           is_confirmed := false
           avatar := none
           refresh_token := none }]) := by
  exact (duplicate_registration_conflict demoHashPw demoRegisterBody
    1 2 []).2
    { id := 1
      email := "nick@example.com"
      username := "nick"
      hashed_password := "bcrypt-7654321"
      is_confirmed := false
      avatar := none
      refresh_token := none }
    [{ id := 1
       email := "nick@example.com"
       username := "nick"
       hashed_password := "bcrypt-7654321"
       is_confirmed := false
       avatar := none
       refresh_token := none }]
    (by decide)

end ContactsApi
